import Mathlib

/-!
# Verification of `src/script.js` (portfolio page controller)

Shallow embedding of the client-side script of the portfolio page:
the debounce utility, the sidebar controller, the scroll-spy observer
callback, the typing animator, the particle-field renderer lifecycle,
the lazy image loader, and the top-level initialization sequence.

Times are in milliseconds, modelled as `Nat`.  DOM element absence is
modelled with `Option`; a JavaScript `TypeError` raised by dereferencing
a missing element is modelled with `Except.error`.
-/

namespace Portfolio

/-! ## Debounce utility (src/script.js lines 7-17)

The captured `timeout` variable of the closure: `none` when no timer is
pending, `some (fireTime, args)` for the pending `setTimeout(later, wait)`
carrying the arguments captured by `executedFunction`. -/

structure DebounceState (α : Type) where
  timeout : Option (Nat × α)
deriving DecidableEq

/-- Deliver any timer that is due at or before `now`: the `later` closure
(lines 10-13) clears the timeout and invokes `func` with the captured
arguments.  Returns the new state and the list of invocations of `func`
(fire time paired with arguments). -/
def fireDue {α : Type} (s : DebounceState α) (now : Nat) :
    DebounceState α × List (Nat × α) :=
  match s.timeout with
  | some (ft, a) => if ft ≤ now then (⟨none⟩, [(ft, a)]) else (s, [])
  | none => (s, [])

/-- One call of the debounced wrapper at time `t` with arguments `args`
(lines 14-15): `clearTimeout(timeout)` discards any pending timer and
`setTimeout(later, wait)` schedules a fresh one at `t + w`. -/
def debounceCall {α : Type} (w : Nat) (_s : DebounceState α) (t : Nat)
    (args : α) : DebounceState α :=
  ⟨some (t + w, args)⟩

/-- Process a time-ordered list of wrapper calls: before each call, any
timer due by that moment fires; then the call reschedules. -/
def processCalls {α : Type} (w : Nat) :
    List (Nat × α) → DebounceState α → DebounceState α × List (Nat × α)
  | [], s => (s, [])
  | (t, a) :: rest, s =>
    let fd := fireDue s t
    let s2 := debounceCall w fd.1 t a
    let pr := processCalls w rest s2
    (pr.1, fd.2 ++ pr.2)

/-- After the last wrapper call, let the remaining pending timer (if any)
fire. -/
def flushTimer {α : Type} (s : DebounceState α) : List (Nat × α) :=
  match s.timeout with
  | some (ft, a) => [(ft, a)]
  | none => []

/-- Full trace of invocations of the wrapped `func` produced by a
time-ordered list of calls to the debounced wrapper, starting with no
pending timer. -/
def debounceTrace {α : Type} (w : Nat) (calls : List (Nat × α)) :
    List (Nat × α) :=
  let pr := processCalls w calls ⟨none⟩
  pr.2 ++ flushTimer pr.1

/-- Burst condition of claim C1 between consecutive calls: time order and
a gap strictly below the wait duration. -/
def burstGap (w : Nat) (p q : Nat × Nat) : Prop :=
  p.1 ≤ q.1 ∧ q.1 < p.1 + w

instance (w : Nat) : DecidableRel (burstGap w) :=
  fun p q => inferInstanceAs (Decidable (p.1 ≤ q.1 ∧ q.1 < p.1 + w))

lemma getLast_cons_eq_getLastD {α : Type} (a : α) (l : List α)
    (h : a :: l ≠ []) : (a :: l).getLast h = l.getLastD a := by
  induction l generalizing a with
  | nil => rfl
  | cons b t ih =>
    rw [List.getLast_cons (by simp), List.getLastD_cons]
    exact ih b (by simp)

lemma processCalls_burst (w : Nat) :
    ∀ (calls : List (Nat × Nat)) (t : Nat) (a : Nat),
      List.Chain' (burstGap w) ((t, a) :: calls) →
      processCalls w calls ⟨some (t + w, a)⟩ =
        (⟨some ((calls.getLastD (t, a)).1 + w, (calls.getLastD (t, a)).2)⟩,
          []) := by
  intro calls
  induction calls with
  | nil => intro t a _; rfl
  | cons hd rest ih =>
    intro t a hchain
    obtain ⟨t', a'⟩ := hd
    have hgap : burstGap w (t, a) (t', a') :=
      (List.chain'_cons.mp hchain).1
    have htail : List.Chain' (burstGap w) ((t', a') :: rest) :=
      (List.chain'_cons.mp hchain).2
    have hnotdue : ¬ (t + w ≤ t') := by
      have := hgap.2
      omega
    have hrec := ih t' a' htail
    simp only [processCalls, fireDue, hnotdue, if_neg, ite_false,
      debounceCall, hrec, List.getLastD_cons, List.nil_append,
      List.append_nil]

/-- C1.  For every wait duration `w` and nonempty time-ordered sequence of
calls to the debounced wrapper in which each call arrives strictly less
than `w` after the previous one, the wrapped function is invoked exactly
once, at `w` after the last call, with the arguments of the last call; no
earlier call's scheduled invocation fires. -/
theorem debounce_last_call_fires (w : Nat) (calls : List (Nat × Nat))
    (hne : calls ≠ []) (hburst : List.Chain' (burstGap w) calls) :
    debounceTrace w calls =
      [((calls.getLast hne).1 + w, (calls.getLast hne).2)] := by
  obtain ⟨⟨t, a⟩, rest, rfl⟩ := List.exists_cons_of_ne_nil hne
  have hrec := processCalls_burst w rest t a hburst
  simp only [debounceTrace, processCalls, fireDue, debounceCall, hrec,
    flushTimer, List.nil_append, List.append_nil,
    getLast_cons_eq_getLastD]

/-- Witness for C1: two calls at times 0 and 3 with wait 5 (gap 3 < 5)
produce exactly one invocation, at time 8, with the second call's
arguments. -/
theorem debounce_last_call_fires_witness :
    debounceTrace 5 [(0, 10), (3, 20)] = [(8, 20)] := by
  have h := debounce_last_call_fires 5 [(0, 10), (3, 20)] (by decide)
    (by simp [List.chain'_cons, List.chain'_singleton, burstGap])
  simpa using h

/-! ## Typing animator (src/script.js lines 89-131)

Closure state of the animator: `phraseIndex`, `charIndex`, `isDeleting`
(lines 93-95).  The phrase list and timing constants are lines 92 and
97-99.  JavaScript `substring(0, n)` clamps its bounds, as does
`String.take` with truncated `Nat` subtraction. -/

def phrases : List String := ["developer.", "problem solver.", "computer engineer."]

def typeSpeed : Nat := 100

def deleteSpeed : Nat := 50

def delayBetweenPhrases : Nat := 2000

structure TypingState where
  phraseIndex : Nat
  charIndex : Nat
  isDeleting : Bool
deriving DecidableEq

/-- One execution of `animateTyping` (lines 101-129) with reduced-motion
flag `rm` and phrase list `ps`: returns the new closure state, the final
`textContent` of the element after this run, and the delay of the
`setTimeout` scheduled for the next run (`none` when reduced motion
suppresses rescheduling and instead overwrites the text with the first
phrase, lines 124-128). -/
def animateTyping (rm : Bool) (ps : List String) (s : TypingState) :
    TypingState × String × Option Nat :=
  let currentPhrase := ps.getD s.phraseIndex ""
  let displayText :=
    if s.isDeleting then currentPhrase.take (s.charIndex - 1)
    else currentPhrase.take (s.charIndex + 1)
  let charIndex := if s.isDeleting then s.charIndex - 1 else s.charIndex + 1
  let timeout := if s.isDeleting then deleteSpeed else typeSpeed
  let next :=
    if !s.isDeleting && charIndex == currentPhrase.length then
      (TypingState.mk s.phraseIndex charIndex true, delayBetweenPhrases)
    else if s.isDeleting && charIndex == 0 then
      (TypingState.mk ((s.phraseIndex + 1) % ps.length) charIndex false, timeout)
    else
      (TypingState.mk s.phraseIndex charIndex s.isDeleting, timeout)
  if rm then (next.1, ps.getD 0 "", none) else (next.1, displayText, some next.2)

/-- Initial closure state (lines 93-95). -/
def typingInit : TypingState := ⟨0, 0, false⟩

/-- The typing timer loop: starting from state `s`, execute up to `fuel`
timer callbacks, the first being the initial `setTimeout(animateTyping,
500)` of line 130.  Returns the list of texts displayed at the end of
each executed callback and the number of callbacks executed; the loop
stops when a run schedules no successor. -/
def typingRun (rm : Bool) (ps : List String) :
    Nat → TypingState → List String × Nat
  | 0, _ => ([], 0)
  | fuel + 1, s =>
    let r := animateTyping rm ps s
    match r.2.2 with
    | none => ([r.2.1], 1)
    | some _ =>
      let rest := typingRun rm ps fuel r.1
      (r.2.1 :: rest.1, rest.2 + 1)

/-- Counterexample to C2.  With reduced motion on, the number of timer
callback invocations is 1, not 0: line 130 schedules the initial
`setTimeout(animateTyping, 500)` unconditionally, so the first phrase is
displayed only once that timer fires. -/
theorem typing_reduced_motion_one_timer_counterexample :
    (typingRun true phrases 5 typingInit).2 = 1 ∧
      (typingRun true phrases 5 typingInit).2 ≠ 0 := by
  constructor
  · rfl
  · decide

/-- C2 amended.  With reduced motion on (and the typing target present),
exactly one timer invocation occurs — the initial 500 ms start timer; when
it runs, the displayed text becomes the first phrase, no further timer is
scheduled, and the text therefore remains the first phrase permanently. -/
theorem typing_reduced_motion_first_phrase (ps : List String)
    (s : TypingState) (fuel : Nat) (h : 1 ≤ fuel) :
    typingRun true ps fuel s = ([ps.getD 0 ""], 1) := by
  cases fuel with
  | zero => exact absurd h (by decide)
  | succ k => simp [typingRun, animateTyping]

/-- Witness for C2 amended: from the initial state with the source's
phrase list and one unit of fuel, the run displays exactly "developer."
and performs exactly one timer invocation. -/
theorem typing_reduced_motion_first_phrase_witness :
    typingRun true phrases 1 typingInit = (["developer."], 1) := by
  have h := typing_reduced_motion_first_phrase phrases typingInit 1
    (by decide)
  simpa [phrases] using h

/-- Counterexample to C4.  For phrase list `["a.", "bb."]` with reduced
motion off, the displayed strings of the first four ticks — those before
phrase 2's growth begins — are "a", "a.", "a", "": the shrink phase passes
through the one-character text "a" again, so the claimed three-element
sequence "a", "a.", "" is not the displayed sequence. -/
theorem typing_trace_counterexample :
    (typingRun false ["a.", "bb."] 4 typingInit).1 = ["a", "a.", "a", ""] ∧
      (typingRun false ["a.", "bb."] 4 typingInit).1 ≠ ["a", "a.", ""] := by
  constructor
  · rfl
  · decide

/-- C4 amended.  For phrase list `["a.", "bb."]` with reduced motion off,
the sequence of displayed strings during phrase 1 is "a", "a.", "a", ""
before phrase 2's growth begins (tick 5 displays "b"): growth adds one
character per tick up to the full phrase, shrink removes one character per
tick down to the empty text, never skipping a character; and in general
the displayed text after every tick is the prefix of the current phrase
whose length is the updated character count. -/
theorem typing_phrase_one_trace :
    (typingRun false ["a.", "bb."] 5 typingInit).1 = ["a", "a.", "a", "", "b"] ∧
      ∀ (ps : List String) (s : TypingState),
        (animateTyping false ps s).2.1 =
          (ps.getD s.phraseIndex "").take ((animateTyping false ps s).1.charIndex) := by
  constructor
  · rfl
  · intro ps s
    simp only [animateTyping]
    cases s.isDeleting <;> simp <;> split <;> simp_all

/-! ## Sidebar controller (src/script.js lines 38-47) -/

/-- The class and attribute state touched by `toggleSidebar`:
`hamburger.classList` "active", `sidebar.classList` "show",
`overlay.classList` "show", `body.classList` "sidebar-open", and the
hamburger's `aria-expanded` attribute (stringified boolean). -/
structure SidebarDom where
  hamburgerActive : Bool
  sidebarShow : Bool
  overlayShow : Bool
  bodySidebarOpen : Bool
  ariaExpanded : String
deriving DecidableEq

/-- `toggleSidebar(show)` (lines 38-47) with all three elements present:
reads `isVisible` from the sidebar's "show" class, forces the argument
when one is given and flips otherwise, then writes the same boolean to
every class and to `aria-expanded`. -/
def toggleSidebar (force : Option Bool) (d : SidebarDom) : SidebarDom :=
  let isVisible := d.sidebarShow
  let showSidebar := force.getD (!isVisible)
  { hamburgerActive := showSidebar
    sidebarShow := showSidebar
    overlayShow := showSidebar
    bodySidebarOpen := showSidebar
    ariaExpanded := if showSidebar then "true" else "false" }

/-- C8.  Sidebar toggle algebra, from any starting state: `toggle(true)`
then `toggle()` leaves the sidebar hidden; `toggle(false)` on a hidden
sidebar leaves it hidden, and is idempotent; `toggle(b)` forces state `b`;
`toggle()` with no argument flips the current state. -/
theorem sidebar_toggle_algebra (d : SidebarDom) (b : Bool) :
    (toggleSidebar none (toggleSidebar (some true) d)).sidebarShow = false ∧
    (d.sidebarShow = false →
      (toggleSidebar (some false) d).sidebarShow = false) ∧
    toggleSidebar (some false) (toggleSidebar (some false) d) =
      toggleSidebar (some false) d ∧
    (toggleSidebar (some b) d).sidebarShow = b ∧
    (toggleSidebar none d).sidebarShow = !d.sidebarShow :=
  ⟨rfl, fun _ => rfl, rfl, rfl, rfl⟩

/-- Witness for C8 at the hidden initial state: `toggle(false)` keeps the
sidebar hidden. -/
theorem sidebar_toggle_algebra_witness :
    (toggleSidebar (some false)
      (SidebarDom.mk false false false false "false")).sidebarShow = false :=
  (sidebar_toggle_algebra (SidebarDom.mk false false false false "false")
    true).2.1 rfl

/-! ## Sidebar elements possibly absent (src/script.js lines 50-62 and
264-269)

The click handlers of lines 51-61 are attached only under the guard
`if (hamburger && sidebar && overlay)` of line 50, but the keydown
listener of lines 264-269 is attached unconditionally.  Element presence
is modelled per element; dereferencing a missing element throws, modelled
as `Except.error`. -/

/-- The page's sidebar-related elements, each `none` when absent from the
document; present elements carry their relevant class flag
(`hamburger` "active", `sidebar` "show", `overlay` "show"). -/
structure SidebarPage where
  hamburger : Option Bool
  sidebar : Option Bool
  overlay : Option Bool
  bodySidebarOpen : Bool
deriving DecidableEq

/-- `toggleSidebar` (lines 38-47) run against a document in which sidebar
elements may be missing: property access on a missing element throws a
`TypeError`.  Access order follows the source: `sidebar.classList`
(line 39), then `hamburger.classList` (line 42), then
`overlay.classList` (line 44). -/
def toggleSidebarJS (force : Option Bool) (p : SidebarPage) :
    Except String SidebarPage :=
  match p.sidebar with
  | none => Except.error "TypeError: sidebar is null"
  | some isVisible =>
    let showSidebar := force.getD (!isVisible)
    match p.hamburger with
    | none => Except.error "TypeError: hamburger is null"
    | some _ =>
      match p.overlay with
      | none => Except.error "TypeError: overlay is null"
      | some _ =>
        Except.ok ⟨some showSidebar, some showSidebar, some showSidebar,
          showSidebar⟩

/-- The document-level keydown handler (lines 264-269), attached
unconditionally at initialization: on "Escape" it reads
`sidebar.classList.contains("show")` and, when the sidebar is shown,
calls `toggleSidebar(false)` and focuses the hamburger. -/
def keydownHandler (key : String) (p : SidebarPage) :
    Except String SidebarPage :=
  if key == "Escape" then
    match p.sidebar with
    | none => Except.error "TypeError: sidebar is null"
    | some showing =>
      if showing then
        match toggleSidebarJS (some false) p with
        | Except.error e => Except.error e
        | Except.ok p2 =>
          match p2.hamburger with
          | none => Except.error "TypeError: hamburger is null"
          | some _ => Except.ok p2
      else Except.ok p
  else Except.ok p

/-- C3 fails on the code: on a document whose hamburger and overlay exist
but whose sidebar panel is absent, pressing Escape makes the
unconditionally-attached keydown handler (lines 264-269) dereference
`sidebar.classList` on `null` and throw a `TypeError` — the controller is
not inert. -/
theorem keydown_escape_throws_without_sidebar :
    keydownHandler "Escape" (SidebarPage.mk (some false) none (some false) false) =
      Except.error "TypeError: sidebar is null" := rfl

/-! ## Scroll-spy (src/script.js lines 64-87)

The observer is created with `threshold: 0.55` (line 69), so an entry
reaches the callback as qualifying (`isIntersecting`) when the section's
visibility ratio meets the threshold. -/

structure NavLink where
  href : String
  active : Bool
deriving DecidableEq

/-- The observer threshold of line 69: 0.55. -/
def observerThreshold : ℚ := 11 / 20

/-- Whether a visibility ratio qualifies under the 0.55 threshold. -/
def qualifies (r : ℚ) : Bool := decide (observerThreshold ≤ r)

/-- Template-literal rendering of `entry.target.getAttribute("id")` in
the comparison of line 78: a `null` attribute prints as "null". -/
def idText : Option String → String
  | some s => s
  | none => "null"

/-- The `sectionObserver` callback body for one entry (lines 73-83): if
the entry is intersecting, every link first has "active" removed and then
has it added exactly when its `href` equals "#" followed by the section's
id; a non-intersecting entry changes nothing. -/
def sectionObserverEntry (links : List NavLink) (isIntersecting : Bool)
    (id : Option String) : List NavLink :=
  if isIntersecting then
    links.map (fun l => { l with active := l.href == "#" ++ idText id })
  else links

/-- C5.  After the scroll-spy processes a qualifying intersection event
(visibility ratio at or above the 0.55 threshold) for a section with
identifier `s`, every navigation link's `href` is kept and its active
marker holds exactly when its target fragment equals "#s", regardless of
which links were active before. -/
theorem scrollspy_exactly_matching_active (links : List NavLink)
    (s : String) (r : ℚ) (hq : qualifies r = true) :
    sectionObserverEntry links (qualifies r) (some s) =
      links.map (fun l => NavLink.mk l.href (l.href == "#" ++ s)) := by
  simp only [sectionObserverEntry, hq, if_true, idText]

/-- Witness for C5 at ratio 1 with two links, the wrong one initially
active: afterwards exactly the link targeting "#s2" is active. -/
theorem scrollspy_exactly_matching_active_witness :
    sectionObserverEntry [NavLink.mk "#s1" true, NavLink.mk "#s2" false]
        (qualifies 1) (some "s2") =
      [NavLink.mk "#s1" false, NavLink.mk "#s2" true] := by
  have h := scrollspy_exactly_matching_active
    [NavLink.mk "#s1" true, NavLink.mk "#s2" false] "s2" 1
    (by simp [qualifies, observerThreshold]; norm_num)
  rw [h]
  decide

/-- Counterexample to C10.  A section with no identifier attribute is
compared through the template literal as "#null" (line 78), so a
navigation link whose literal href is "#null" is set active by the
callback even though the section has no identifier: the page is not left
with no active navigation entry. -/
theorem scrollspy_no_id_counterexample :
    sectionObserverEntry [NavLink.mk "#null" false] true none =
        [NavLink.mk "#null" true] ∧
      ¬ (∀ l ∈ sectionObserverEntry [NavLink.mk "#null" false] true none,
          l.active = false) := by
  constructor
  · rfl
  · decide

/-- C10 amended.  For every qualifying scroll-spy intersection event whose
section fragment string — "#" followed by the id, a missing identifier
rendering as "#null" — differs from every navigation link's target
fragment, the callback removes the active marker from every link and sets
it on none. -/
theorem scrollspy_no_match_clears_all (links : List NavLink)
    (id : Option String) (h : ∀ l ∈ links, l.href ≠ "#" ++ idText id)
    (l : NavLink) (hl : l ∈ sectionObserverEntry links true id) :
    l.active = false := by
  simp only [sectionObserverEntry, if_true, List.mem_map] at hl
  obtain ⟨a, ha, rfl⟩ := hl
  simp [beq_eq_false_iff_ne, h a ha]

/-- Witness for C10 amended: a qualifying event for an identifier-less
section leaves the sole link, targeting "#s1" and previously active,
inactive. -/
theorem scrollspy_no_match_clears_all_witness :
    NavLink.mk "#s1" false ∈
        sectionObserverEntry [NavLink.mk "#s1" true] true none ∧
      (NavLink.mk "#s1" false).active = false :=
  ⟨by decide,
    scrollspy_no_match_clears_all [NavLink.mk "#s1" true] none (by decide)
      (NavLink.mk "#s1" false) (by decide)⟩

/-! ## Particle-field renderer lifecycle (src/script.js lines 189-206)

`animationId` is the closure variable of line 189; `pending` is the set
(here a list) of animation-frame requests the host currently holds for
this renderer; `nextId` generates fresh request identifiers; `hidden` is
`document.hidden`.  `visibilitychange` fires when the document's
visibility actually changes, so the handler of lines 203-206 observes the
toggled value; animation-frame callbacks are only delivered while the
page is visible. -/

structure RendererState where
  hidden : Bool
  pending : List Nat
  animationId : Nat
  nextId : Nat
deriving DecidableEq

/-- The frame-request part of `animate` (line 192):
`animationId = requestAnimationFrame(animate)` adds one fresh pending
request and records its id. -/
def animateFrameRequest (s : RendererState) : RendererState :=
  { s with
    pending := s.pending ++ [s.nextId]
    animationId := s.nextId
    nextId := s.nextId + 1 }

inductive RendererEvent
  | visibilitychange
  | frame
deriving DecidableEq

/-- One event step.  `visibilitychange` toggles `document.hidden` and
runs the handler of lines 203-206: when now hidden,
`cancelAnimationFrame(animationId)`; when now visible, `animate()`.
`frame` delivers the pending animation-frame callback while the page is
visible: the callback is `animate` (lines 191-197), which first requests
the next frame. -/
def rendererStep (s : RendererState) (e : RendererEvent) : RendererState :=
  match e with
  | RendererEvent.visibilitychange =>
    let s1 := { s with hidden := !s.hidden }
    if s1.hidden then { s1 with pending := s1.pending.erase s1.animationId }
    else animateFrameRequest s1
  | RendererEvent.frame =>
    if s.hidden then s
    else
      match s.pending with
      | [] => s
      | _ :: rest => animateFrameRequest { s with pending := rest }

/-- State right after setup: the page is visible and `animate()` has run
once (line 198), leaving one pending frame request. -/
def rendererInit : RendererState := animateFrameRequest ⟨false, [], 0, 0⟩

/-- The renderer state reached after a sequence of events. -/
def rendererRun (evs : List RendererEvent) : RendererState :=
  evs.foldl rendererStep rendererInit

/-- Lifecycle invariant: a hidden page has no pending frame request and a
visible page has exactly the one identified by `animationId`. -/
def rendererInv (s : RendererState) : Prop :=
  (s.hidden = true → s.pending = []) ∧
    (s.hidden = false → s.pending = [s.animationId])

lemma rendererStep_inv (s : RendererState) (e : RendererEvent)
    (h : rendererInv s) : rendererInv (rendererStep s e) := by
  obtain ⟨hid, pend, aid, nid⟩ := s
  obtain ⟨hhid, hvis⟩ := h
  cases e with
  | visibilitychange =>
    cases hid with
    | false =>
      have hp : pend = [aid] := hvis rfl
      subst hp
      constructor
      · intro _
        simp [rendererStep, List.erase_cons_head]
      · intro hc
        simp [rendererStep] at hc
    | true =>
      have hp : pend = [] := hhid rfl
      subst hp
      constructor
      · intro hc
        simp [rendererStep, animateFrameRequest] at hc
      · intro _
        simp [rendererStep, animateFrameRequest]
  | frame =>
    cases hid with
    | false =>
      have hp : pend = [aid] := hvis rfl
      subst hp
      constructor
      · intro hc
        simp [rendererStep, animateFrameRequest] at hc
      · intro _
        simp [rendererStep, animateFrameRequest]
    | true =>
      have hp : pend = [] := hhid rfl
      subst hp
      constructor
      · intro _
        simp [rendererStep]
      · intro hc
        simp [rendererStep] at hc

lemma foldl_rendererStep_inv (evs : List RendererEvent)
    (s : RendererState) (h : rendererInv s) :
    rendererInv (evs.foldl rendererStep s) := by
  induction evs generalizing s with
  | nil => exact h
  | cons e rest ih => exact ih _ (rendererStep_inv s e h)

lemma rendererRun_inv (evs : List RendererEvent) :
    rendererInv (rendererRun evs) := by
  refine foldl_rendererStep_inv evs rendererInit ⟨?_, fun _ => rfl⟩
  intro hc
  simp [rendererInit, animateFrameRequest] at hc

/-- C6.  In every state reachable by any sequence of visibility-change
and frame events after the renderer starts, at most one pending
animation-frame request exists: a transition to hidden cancels the active
request (the loop stops, zero pending) and a transition back to visible
restarts the loop (exactly one pending); requests never accumulate. -/
theorem renderer_at_most_one_pending (evs : List RendererEvent) :
    (rendererRun evs).pending.length ≤ 1 ∧
      ((rendererRun evs).hidden = true → (rendererRun evs).pending = []) ∧
      ((rendererRun evs).hidden = false →
        (rendererRun evs).pending.length = 1) := by
  obtain ⟨hhid, hvis⟩ := rendererRun_inv evs
  refine ⟨?_, hhid, ?_⟩
  · cases hs : (rendererRun evs).hidden with
    | false => simp [hvis hs]
    | true => simp [hhid hs]
  · intro hs
    simp [hvis hs]

/-- Witness for C6: after one visibility change (page becomes hidden) the
pending request list is empty; after a second (page visible again) its
length is exactly one. -/
theorem renderer_at_most_one_pending_witness :
    (rendererRun [RendererEvent.visibilitychange]).pending = [] ∧
      (rendererRun
        [RendererEvent.visibilitychange,
          RendererEvent.visibilitychange]).pending.length = 1 :=
  ⟨(renderer_at_most_one_pending [RendererEvent.visibilitychange]).2.1 rfl,
    (renderer_at_most_one_pending
      [RendererEvent.visibilitychange,
        RendererEvent.visibilitychange]).2.2 rfl⟩

/-! ## Particle-field setup failure containment (src/script.js
lines 134-211) and the initialization sequence (lines 24-272) -/

/-- Host conditions probed by the guard of line 134 together with whether
constructing the rendering context (lines 143-147) throws. -/
structure Env where
  canvasPresent : Bool
  threeDefined : Bool
  reducedMotion : Bool
  ctxConstructionFails : Bool
deriving DecidableEq

/-- Outcome of the particle-field initialization block. -/
structure ParticleInit where
  loopStarted : Bool
  warned : Bool
  canvasDisplayNone : Bool
deriving DecidableEq

/-- The try-block body (lines 135-206): constructing the renderer may
throw; on success the scene is built, `animate()` starts the loop, and
the resize and visibility handlers are wired. -/
def threeSetup (env : Env) : Except String ParticleInit :=
  if env.ctxConstructionFails then
    Except.error "WebGL context creation failed"
  else Except.ok ⟨true, false, false⟩

/-- Lines 134-211: the guarded try/catch.  The catch block (lines
207-210) logs a warning and sets `canvas.style.display = "none"`. -/
def particleFieldInit (env : Env) : ParticleInit :=
  if env.canvasPresent && env.threeDefined && !env.reducedMotion then
    match threeSetup env with
    | Except.ok r => r
    | Except.error _ => ⟨false, true, true⟩
  else ⟨false, false, false⟩

/-- Presence of the DOM collaborators read at lines 26-31 and 214-215. -/
structure DocEnv where
  hamburgerPresent : Bool
  sidebarPresent : Bool
  overlayPresent : Bool
  navLinkCount : Nat
  sectionCount : Nat
  typingTargetPresent : Bool
  intersectionObserverSupported : Bool
deriving DecidableEq

/-- What the DOMContentLoaded handler wired by the time it returns. -/
structure InitResult where
  sidebarWired : Bool
  scrollSpyWired : Bool
  typingStarted : Bool
  particle : ParticleInit
  lazyHandled : Bool
  smoothScrollWired : Bool
  keydownWired : Bool
deriving DecidableEq

/-- The DOMContentLoaded handler (lines 24-272) as its sequence of
component initializations; an uncaught exception in any step would abort
every later step, modelled by the `Except` monad.  The particle-field
step is the total `particleFieldInit` because its body is wrapped in
try/catch; every other step is guarded by existence checks and throws
nothing during initialization. -/
def domContentLoadedInit (doc : DocEnv) (env : Env) :
    Except String InitResult := do
  let sidebarWired := doc.hamburgerPresent && doc.sidebarPresent &&
    doc.overlayPresent
  let scrollSpyWired := decide (0 < doc.navLinkCount) &&
    decide (0 < doc.sectionCount)
  let typingStarted := doc.typingTargetPresent
  let particle := particleFieldInit env
  pure ⟨sidebarWired, scrollSpyWired, typingStarted, particle, true, true,
    true⟩

/-- C7.  If the rendering-context construction throws during
particle-field setup, the exception is caught: the handler returns
normally (no exception propagates), a warning is logged, the canvas is
hidden, the render loop never starts, and the initialization of every
other component still runs (lazy loading, smooth scroll and the keydown
handler are wired, and the sidebar wiring is exactly what its own guard
decides). -/
theorem particle_failure_contained (doc : DocEnv) (env : Env)
    (hc : env.canvasPresent = true) (ht : env.threeDefined = true)
    (hm : env.reducedMotion = false) (hf : env.ctxConstructionFails = true) :
    ∃ r, domContentLoadedInit doc env = Except.ok r ∧
      r.particle = ParticleInit.mk false true true ∧
      r.lazyHandled = true ∧ r.smoothScrollWired = true ∧
      r.keydownWired = true ∧
      r.sidebarWired = (doc.hamburgerPresent && doc.sidebarPresent &&
        doc.overlayPresent) := by
  refine ⟨_, rfl, ?_, rfl, rfl, rfl, rfl⟩
  simp [particleFieldInit, threeSetup, hc, ht, hm, hf]

/-- Witness for C7 on a fully populated document whose context
construction fails. -/
theorem particle_failure_contained_witness :
    ∃ r, domContentLoadedInit
        (DocEnv.mk true true true 4 4 true true)
        (Env.mk true true false true) = Except.ok r ∧
      r.particle = ParticleInit.mk false true true ∧
      r.lazyHandled = true ∧ r.smoothScrollWired = true ∧
      r.keydownWired = true ∧
      r.sidebarWired = (true && true && true) :=
  particle_failure_contained (DocEnv.mk true true true 4 4 true true)
    (Env.mk true true false true) rfl rfl rfl rfl

/-! ## Lazy image loader (src/script.js lines 213-242) -/

/-- One image's relevant DOM state: its `src` attribute, its `data-src`
attribute, whether `imageObserver` still observes it, and its inline
opacity. -/
structure ImgState where
  src : Option String
  dataSrc : Option String
  observed : Bool
  opacity : String
deriving DecidableEq

/-- Per-image setup (lines 231-235) for an image whose deferred source is
`u`: opacity forced to "0" and observation started; no `src` is
assigned. -/
def lazySetup (u : String) : ImgState :=
  ⟨none, some u, true, "0"⟩

/-- The `imageObserver` callback for one entry of this image (lines
218-226): while the image is observed, a qualifying entry (intersecting
under the 100px root margin of line 228) assigns the real source from
`data-src`, removes the `data-src` attribute and unobserves the image;
entries are delivered only while the element is observed. -/
def lazyStep (img : ImgState) (isIntersecting : Bool) : ImgState :=
  if img.observed && isIntersecting then
    { img with src := img.dataSrc, dataSrc := none, observed := false }
  else img

/-- The image state after a sequence of intersection events, starting
from setup with deferred source `u`. -/
def lazyRun (u : String) (events : List Bool) : ImgState :=
  events.foldl lazyStep (lazySetup u)

/-- The absorbing loaded state: real source assigned, marker attribute
removed, no longer observed. -/
def lazyLoaded (u : String) : ImgState := ⟨some u, none, false, "0"⟩

lemma lazyStep_setup_false (u : String) :
    lazyStep (lazySetup u) false = lazySetup u := rfl

lemma lazyStep_loaded (u : String) (b : Bool) :
    lazyStep (lazyLoaded u) b = lazyLoaded u := rfl

lemma foldl_lazyStep_loaded (u : String) (events : List Bool) :
    events.foldl lazyStep (lazyLoaded u) = lazyLoaded u := by
  induction events with
  | nil => rfl
  | cons b rest ih => simpa [lazyStep_loaded] using ih

/-- C9.  With intersection observation supported, an image carrying the
deferred-source attribute has no assigned `src` for as long as no
qualifying intersection occurs; from the first qualifying intersection
on, its real source is assigned (exactly once), the deferred-source
attribute is removed and the element is unobserved, and every later
event leaves that state untouched — no second assignment ever occurs. -/
theorem lazy_image_one_shot (u : String) (events : List Bool) :
    (true ∉ events → lazyRun u events = lazySetup u) ∧
      (true ∈ events → lazyRun u events = lazyLoaded u) := by
  rw [lazyRun]
  induction events with
  | nil => exact ⟨fun _ => rfl, fun h => absurd h (List.not_mem_nil true)⟩
  | cons b rest ih =>
    cases b with
    | false =>
      refine ⟨fun hno => ?_, fun hyes => ?_⟩
      · have : true ∉ rest := fun h => hno (List.mem_cons_of_mem _ h)
        simpa [lazyStep_setup_false] using ih.1 this
      · have : true ∈ rest := by
          rcases List.mem_cons.mp hyes with h | h
          · exact absurd h.symm (by decide)
          · exact h
        simpa [lazyStep_setup_false] using ih.2 this
    | true =>
      refine ⟨fun hno => absurd (List.mem_cons_self true rest) hno,
        fun _ => ?_⟩
      have hstep : lazyStep (lazySetup u) true = lazyLoaded u := rfl
      simpa [hstep] using foldl_lazyStep_loaded u rest

/-- Witness for C9: two non-qualifying events leave the image untouched
with no source; a qualifying event followed by further events leaves
exactly the loaded state. -/
theorem lazy_image_one_shot_witness :
    lazyRun "real.jpg" [false, false] = lazySetup "real.jpg" ∧
      lazyRun "real.jpg" [false, true, false, true] = lazyLoaded "real.jpg" :=
  ⟨(lazy_image_one_shot "real.jpg" [false, false]).1 (by decide),
    (lazy_image_one_shot "real.jpg" [false, true, false, true]).2
      (by decide)⟩

end Portfolio
